import Mathlib

/-!
Verification of the water-reach-tools repository against its specification.

The definitions below are shallow embeddings of the Python source:

* `gauge_stage` embeds `Reach.gauge_stage` (src/water_reach_tools/reach.py,
  lines 717-890).  Float values are modelled as rationals; the ten gauge
  range slots are `Option` values; the Python truthiness test
  `if not self.gauge_observation` is modelled as the observation being
  `none` or `some 0`.
-/

namespace WaterReach

/-- The ten gauge range slots `gauge_r0 .. gauge_r9` of a `Reach`
(each `float or None` in the source). -/
structure GaugeSlots where
  r0 : Option ℚ
  r1 : Option ℚ
  r2 : Option ℚ
  r3 : Option ℚ
  r4 : Option ℚ
  r5 : Option ℚ
  r6 : Option ℚ
  r7 : Option ℚ
  r8 : Option ℚ
  r9 : Option ℚ
deriving DecidableEq

/-- The slot values in slot order, as `getattr(self, key) for key in metric_keys`. -/
def slotList (s : GaugeSlots) : List (Option ℚ) :=
  [s.r0, s.r1, s.r2, s.r3, s.r4, s.r5, s.r6, s.r7, s.r8, s.r9]

/-- `get_metrics` of `Reach.gauge_stage`: drop the `None` entries, deduplicate
(`list(set(...))`) and sort ascending (`.sort()`). -/
def get_metrics (l : List (Option ℚ)) : List ℚ :=
  List.insertionSort (· ≤ ·) (l.filterMap id).dedup

/-- `metrics = get_metrics(metric_keys)` over all ten slots. -/
def gauge_metrics (s : GaugeSlots) : List ℚ :=
  get_metrics (slotList s)

/-- `low_metrics = get_metrics(metric_keys[:6])`: distinct values of slots r0-r5. -/
def low_metrics (s : GaugeSlots) : List ℚ :=
  get_metrics ((slotList s).take 6)

/-- `high_metrics = get_metrics(metric_keys[5:])`: distinct values of slots r5-r9. -/
def high_metrics (s : GaugeSlots) : List ℚ :=
  get_metrics ((slotList s).drop 5)

/-- The banding chain of `Reach.gauge_stage` after the empty-metrics and falsy
observation checks (reach.py lines 738-890).  Each Python `if len(metrics) == k:`
block containing `if metrics[i] < obs < metrics[i+1]: return label` statements is
linearized into one `if`-branch per labelled interval; control falling out of every
block returns `None`.  Note the two nine-metric blocks are both guarded by
`len(low_metrics) > len(high_metrics)` in the source, so the second is unreachable. -/
def classify_chain (metrics lowM highM : List ℚ) (g : ℚ) : Option String :=
  if g < metrics.getD 0 0 then some "too low"
  else if metrics.getLastD 0 < g then some "too high"
  else if metrics.length = 2 ∨ (metrics.length = 1 ∧ highM.length > 0) then some "runnable"
  else if metrics.length = 3 ∧ metrics.getD 0 0 < g ∧ g < metrics.getD 1 0 then some "lower runnable"
  else if metrics.length = 3 ∧ metrics.getD 1 0 < g ∧ g < metrics.getD 2 0 then some "higher runnable"
  else if metrics.length = 4 ∧ metrics.getD 0 0 < g ∧ g < metrics.getD 1 0 then some "low"
  else if metrics.length = 4 ∧ metrics.getD 1 0 < g ∧ g < metrics.getD 2 0 then some "medium"
  else if metrics.length = 4 ∧ metrics.getD 2 0 < g ∧ g < metrics.getD 3 0 then some "high"
  else if metrics.length = 5 ∧ lowM.length > highM.length ∧ metrics.getD 0 0 < g ∧ g < metrics.getD 1 0 then some "very low"
  else if metrics.length = 5 ∧ lowM.length > highM.length ∧ metrics.getD 1 0 < g ∧ g < metrics.getD 2 0 then some "medium low"
  else if metrics.length = 5 ∧ lowM.length > highM.length ∧ metrics.getD 2 0 < g ∧ g < metrics.getD 3 0 then some "medium"
  else if metrics.length = 5 ∧ lowM.length > highM.length ∧ metrics.getD 3 0 < g ∧ g < metrics.getD 4 0 then some "high"
  else if metrics.length = 5 ∧ lowM.length < highM.length ∧ metrics.getD 0 0 < g ∧ g < metrics.getD 1 0 then some "low"
  else if metrics.length = 5 ∧ lowM.length < highM.length ∧ metrics.getD 1 0 < g ∧ g < metrics.getD 2 0 then some "medium"
  else if metrics.length = 5 ∧ lowM.length < highM.length ∧ metrics.getD 2 0 < g ∧ g < metrics.getD 3 0 then some "medium high"
  else if metrics.length = 5 ∧ lowM.length < highM.length ∧ metrics.getD 3 0 < g ∧ g < metrics.getD 4 0 then some "very high"
  else if metrics.length = 6 ∧ metrics.getD 0 0 < g ∧ g < metrics.getD 1 0 then some "low"
  else if metrics.length = 6 ∧ metrics.getD 1 0 < g ∧ g < metrics.getD 2 0 then some "medium low"
  else if metrics.length = 6 ∧ metrics.getD 2 0 < g ∧ g < metrics.getD 3 0 then some "medium"
  else if metrics.length = 6 ∧ metrics.getD 3 0 < g ∧ g < metrics.getD 4 0 then some "medium high"
  else if metrics.length = 6 ∧ metrics.getD 4 0 < g ∧ g < metrics.getD 5 0 then some "high"
  else if metrics.length = 7 ∧ lowM.length > highM.length ∧ metrics.getD 0 0 < g ∧ g < metrics.getD 1 0 then some "very low"
  else if metrics.length = 7 ∧ lowM.length > highM.length ∧ metrics.getD 1 0 < g ∧ g < metrics.getD 2 0 then some "low"
  else if metrics.length = 7 ∧ lowM.length > highM.length ∧ metrics.getD 2 0 < g ∧ g < metrics.getD 3 0 then some "medium low"
  else if metrics.length = 7 ∧ lowM.length > highM.length ∧ metrics.getD 3 0 < g ∧ g < metrics.getD 4 0 then some "medium"
  else if metrics.length = 7 ∧ lowM.length > highM.length ∧ metrics.getD 4 0 < g ∧ g < metrics.getD 5 0 then some "medium high"
  else if metrics.length = 7 ∧ lowM.length > highM.length ∧ metrics.getD 5 0 < g ∧ g < metrics.getD 6 0 then some "high"
  else if metrics.length = 7 ∧ lowM.length < highM.length ∧ metrics.getD 0 0 < g ∧ g < metrics.getD 1 0 then some "low"
  else if metrics.length = 7 ∧ lowM.length < highM.length ∧ metrics.getD 1 0 < g ∧ g < metrics.getD 2 0 then some "medium low"
  else if metrics.length = 7 ∧ lowM.length < highM.length ∧ metrics.getD 2 0 < g ∧ g < metrics.getD 3 0 then some "medium"
  else if metrics.length = 7 ∧ lowM.length < highM.length ∧ metrics.getD 3 0 < g ∧ g < metrics.getD 4 0 then some "medium high"
  else if metrics.length = 7 ∧ lowM.length < highM.length ∧ metrics.getD 4 0 < g ∧ g < metrics.getD 5 0 then some "high"
  else if metrics.length = 7 ∧ lowM.length < highM.length ∧ metrics.getD 5 0 < g ∧ g < metrics.getD 6 0 then some "very high"
  else if metrics.length = 8 ∧ metrics.getD 0 0 < g ∧ g < metrics.getD 1 0 then some "very low"
  else if metrics.length = 8 ∧ metrics.getD 1 0 < g ∧ g < metrics.getD 2 0 then some "low"
  else if metrics.length = 8 ∧ metrics.getD 2 0 < g ∧ g < metrics.getD 3 0 then some "medium low"
  else if metrics.length = 8 ∧ metrics.getD 3 0 < g ∧ g < metrics.getD 4 0 then some "medium"
  else if metrics.length = 8 ∧ metrics.getD 4 0 < g ∧ g < metrics.getD 5 0 then some "medium high"
  else if metrics.length = 8 ∧ metrics.getD 5 0 < g ∧ g < metrics.getD 6 0 then some "high"
  else if metrics.length = 8 ∧ metrics.getD 6 0 < g ∧ g < metrics.getD 7 0 then some "very high"
  else if metrics.length = 9 ∧ lowM.length > highM.length ∧ metrics.getD 0 0 < g ∧ g < metrics.getD 1 0 then some "extremely low"
  else if metrics.length = 9 ∧ lowM.length > highM.length ∧ metrics.getD 1 0 < g ∧ g < metrics.getD 2 0 then some "very low"
  else if metrics.length = 9 ∧ lowM.length > highM.length ∧ metrics.getD 2 0 < g ∧ g < metrics.getD 3 0 then some "low"
  else if metrics.length = 9 ∧ lowM.length > highM.length ∧ metrics.getD 3 0 < g ∧ g < metrics.getD 4 0 then some "medium low"
  else if metrics.length = 9 ∧ lowM.length > highM.length ∧ metrics.getD 4 0 < g ∧ g < metrics.getD 5 0 then some "medium"
  else if metrics.length = 9 ∧ lowM.length > highM.length ∧ metrics.getD 5 0 < g ∧ g < metrics.getD 6 0 then some "medium high"
  else if metrics.length = 9 ∧ lowM.length > highM.length ∧ metrics.getD 6 0 < g ∧ g < metrics.getD 7 0 then some "high"
  else if metrics.length = 9 ∧ lowM.length > highM.length ∧ metrics.getD 7 0 < g ∧ g < metrics.getD 8 0 then some "very high"
  else if metrics.length = 9 ∧ lowM.length > highM.length ∧ metrics.getD 0 0 < g ∧ g < metrics.getD 1 0 then some "very low"
  else if metrics.length = 9 ∧ lowM.length > highM.length ∧ metrics.getD 1 0 < g ∧ g < metrics.getD 2 0 then some "low"
  else if metrics.length = 9 ∧ lowM.length > highM.length ∧ metrics.getD 2 0 < g ∧ g < metrics.getD 3 0 then some "medium low"
  else if metrics.length = 9 ∧ lowM.length > highM.length ∧ metrics.getD 3 0 < g ∧ g < metrics.getD 4 0 then some "medium"
  else if metrics.length = 9 ∧ lowM.length > highM.length ∧ metrics.getD 4 0 < g ∧ g < metrics.getD 5 0 then some "medium high"
  else if metrics.length = 9 ∧ lowM.length > highM.length ∧ metrics.getD 5 0 < g ∧ g < metrics.getD 6 0 then some "high"
  else if metrics.length = 9 ∧ lowM.length > highM.length ∧ metrics.getD 6 0 < g ∧ g < metrics.getD 7 0 then some "very high"
  else if metrics.length = 9 ∧ lowM.length > highM.length ∧ metrics.getD 7 0 < g ∧ g < metrics.getD 8 0 then some "extremely high"
  else if metrics.length = 10 ∧ metrics.getD 0 0 < g ∧ g < metrics.getD 1 0 then some "extremely low"
  else if metrics.length = 10 ∧ metrics.getD 1 0 < g ∧ g < metrics.getD 2 0 then some "very low"
  else if metrics.length = 10 ∧ metrics.getD 2 0 < g ∧ g < metrics.getD 3 0 then some "low"
  else if metrics.length = 10 ∧ metrics.getD 3 0 < g ∧ g < metrics.getD 4 0 then some "medium low"
  else if metrics.length = 10 ∧ metrics.getD 4 0 < g ∧ g < metrics.getD 5 0 then some "medium"
  else if metrics.length = 10 ∧ metrics.getD 5 0 < g ∧ g < metrics.getD 6 0 then some "medium high"
  else if metrics.length = 10 ∧ metrics.getD 6 0 < g ∧ g < metrics.getD 7 0 then some "high"
  else if metrics.length = 10 ∧ metrics.getD 7 0 < g ∧ g < metrics.getD 8 0 then some "very high"
  else if metrics.length = 10 ∧ metrics.getD 8 0 < g ∧ g < metrics.getD 9 0 then some "extremely high"
  else none

/-- `Reach.gauge_stage` (reach.py lines 717-890): empty metrics return `None`;
a falsy observation (`None` or `0.0`) returns `"no gauge reading"`; otherwise
the observation is classified by `classify_chain`. -/
def gauge_stage (s : GaugeSlots) (obs : Option ℚ) : Option String :=
  if (gauge_metrics s).length = 0 then none
  else if obs = none ∨ obs = some 0 then some "no gauge reading"
  else classify_chain (gauge_metrics s) (low_metrics s) (high_metrics s) (obs.getD 0)

end WaterReach

namespace WaterReach

/-- Slots realizing the deduplicated sorted boundaries `[1, 3, 5, 7, 9, 11]`. -/
def c1slots : GaugeSlots :=
  ⟨some 1, some 3, some 5, some 7, some 9, some 11, none, none, none, none⟩

/-- All ten gauge range slots absent. -/
def allNoneSlots : GaugeSlots :=
  ⟨none, none, none, none, none, none, none, none, none, none⟩

/-- Slots with nine distinct boundaries `[-4, -3, -2, -1, 1, 2, 3, 4, 5]`,
five distinct values in slots r0-r5 and five in slots r5-r9, straddling zero. -/
def c10slots : GaugeSlots :=
  ⟨some (-4), some (-3), some (-2), some (-1), some (-4),
   some 1, some 2, some 3, some 4, some 5⟩

lemma gauge_metrics_length_ne_zero (s : GaugeSlots)
    (h : (slotList s).filterMap id ≠ []) : ¬ (gauge_metrics s).length = 0 := by
  rw [gauge_metrics, get_metrics, (List.perm_insertionSort _ _).length_eq,
    List.length_eq_zero, List.dedup_eq_nil]
  exact h

/-- C1 counterexample: with boundaries `[1,3,5,7,9,11]` the observation `5`
falls exactly on the third boundary, and the strict comparisons of
`gauge_stage` classify it under no row, so the result is not `"medium"`. -/
theorem gauge_stage_six_metric_boundary_not_medium :
    gauge_stage c1slots (some 5) ≠ some "medium" := by decide

/-- C1 (amended): with boundaries `[1,3,5,7,9,11]` an observation of exactly `5`
is a boundary value and receives no label (`none`), while an observation strictly
inside the third interval, such as `6`, is classified `"medium"`. -/
theorem gauge_stage_six_metric_boundary :
    gauge_stage c1slots (some 5) = none ∧ gauge_stage c1slots (some 6) = some "medium" := by
  exact ⟨by decide, by decide⟩

/-- C2 counterexample: when every range slot is null the metrics list is empty,
so a null observation yields `none`, not `"no gauge reading"`: the empty-metrics
check precedes the observation check in `Reach.gauge_stage`. -/
theorem gauge_stage_null_observation_all_null_slots :
    gauge_stage allNoneSlots none ≠ some "no gauge reading" := by decide

/-- C2 (amended): for every reach with at least one non-null range boundary,
a null `gauge_observation` is classified `"no gauge reading"`. -/
theorem gauge_stage_null_observation (s : GaugeSlots)
    (h : (slotList s).filterMap id ≠ []) :
    gauge_stage s none = some "no gauge reading" := by
  rw [gauge_stage, if_neg (gauge_metrics_length_ne_zero s h), if_pos (Or.inl rfl)]

/-- Witness for the amended C2 theorem at the concrete slots `c1slots`. -/
theorem gauge_stage_null_observation_witness :
    (slotList c1slots).filterMap id ≠ [] ∧
    gauge_stage c1slots none = some "no gauge reading" :=
  ⟨by decide, gauge_stage_null_observation c1slots (by decide)⟩

/-- C9: for every reach with at least one non-null gauge range boundary, an
observation of exactly `0.0` is falsy in Python, so `Reach.gauge_stage` returns
`"no gauge reading"` exactly as for an absent reading, even when `0.0` lies at
or within the defined boundaries. -/
theorem gauge_stage_zero_observation (s : GaugeSlots)
    (h : (slotList s).filterMap id ≠ []) :
    gauge_stage s (some 0) = some "no gauge reading" := by
  rw [gauge_stage, if_neg (gauge_metrics_length_ne_zero s h), if_pos (Or.inr rfl)]

/-- Witness for the C9 theorem at slots whose boundaries straddle zero, so that
`0.0` lies strictly within the defined boundaries. -/
theorem gauge_stage_zero_observation_witness :
    (slotList c10slots).filterMap id ≠ [] ∧
    gauge_stage c10slots (some 0) = some "no gauge reading" :=
  ⟨by decide, gauge_stage_zero_observation c10slots (by decide)⟩

/-- C10 counterexample: `c10slots` has exactly nine deduplicated boundaries with
the low-half distinct count not exceeding the high-half distinct count, and `0`
lies strictly between the smallest and largest boundary without equalling any
boundary; yet the classifier returns `"no gauge reading"` rather than `none`,
because `0.0` is falsy in Python. -/
theorem gauge_stage_nine_metric_zero_observation :
    (gauge_metrics c10slots).length = 9 ∧
    ¬ (low_metrics c10slots).length > (high_metrics c10slots).length ∧
    (gauge_metrics c10slots).getD 0 0 < 0 ∧
    (0 : ℚ) < (gauge_metrics c10slots).getLastD 0 ∧
    (0 : ℚ) ∉ gauge_metrics c10slots ∧
    gauge_stage c10slots (some 0) ≠ none := by
  refine ⟨by decide, by decide, by decide, by decide, by decide, by decide⟩

lemma classify_chain_nine_low_le_high (metrics lowM highM : List ℚ) (g : ℚ)
    (hlen : metrics.length = 9) (hlh : ¬ lowM.length > highM.length)
    (hlow : metrics.getD 0 0 < g) (hhigh : g < metrics.getLastD 0) :
    classify_chain metrics lowM highM g = none := by
  rw [classify_chain, if_neg (lt_asymm hlow), if_neg (lt_asymm hhigh)]
  simp [hlen, hlh]

/-- C10 (amended): for a reach with exactly nine deduplicated boundary values
whose distinct low-half count does not exceed its distinct high-half count,
every non-zero observation strictly between the smallest and largest boundary
and not equal to any boundary receives no stage label: both nine-metric blocks
of `Reach.gauge_stage` are guarded by the same low-greater-than-high condition.
(A zero observation instead returns `"no gauge reading"`.) -/
theorem gauge_stage_nine_metric_unlabeled (s : GaugeSlots) (g : ℚ)
    (hlen : (gauge_metrics s).length = 9)
    (hlh : ¬ (low_metrics s).length > (high_metrics s).length)
    (hg0 : g ≠ 0)
    (hlow : (gauge_metrics s).getD 0 0 < g)
    (hhigh : g < (gauge_metrics s).getLastD 0)
    (_hmem : g ∉ gauge_metrics s) :
    gauge_stage s (some g) = none := by
  rw [gauge_stage, if_neg (by omega), if_neg (by simp [hg0])]
  exact classify_chain_nine_low_le_high _ _ _ _ hlen hlh hlow hhigh

/-- Witness for the amended C10 theorem at `c10slots` with observation `1/2`. -/
theorem gauge_stage_nine_metric_unlabeled_witness :
    (gauge_metrics c10slots).length = 9 ∧
    ¬ (low_metrics c10slots).length > (high_metrics c10slots).length ∧
    mkRat 1 2 ≠ 0 ∧
    (gauge_metrics c10slots).getD 0 0 < mkRat 1 2 ∧
    mkRat 1 2 < (gauge_metrics c10slots).getLastD 0 ∧
    mkRat 1 2 ∉ gauge_metrics c10slots ∧
    gauge_stage c10slots (some (mkRat 1 2)) = none :=
  ⟨by decide, by decide, by decide, by decide, by decide, by decide,
   gauge_stage_nine_metric_unlabeled c10slots (mkRat 1 2)
     (by decide) (by decide) (by decide) (by decide) (by decide) (by decide)⟩

end WaterReach

namespace WaterReach

/-!
Embedding of `Reach._parse_difficulty_string` (reach.py lines 369-383).
The source applies the anchored Python regular expression

  `^([I|IV|V|VI|5\.\d]{1,3}(?=-))?-?([I|IV|V|VI|5\.\d]{1,3}[+|-]?)\(?([I|IV|V|VI|5\.\d]{0,3}[+|-]?)`

and passes the three captured groups through `_get_if_length`.  The character
class `[I|IV|V|VI|5\.\d]` is the character set {I, V, |, 5, ., 0-9}; the
modifier class `[+|-]` is {+, |, -}.  The matcher below reproduces the
backtracking search of the Python engine: greedy quantifiers try the longest
prefix first, the optional first group tries to participate before being
skipped, and the first complete match wins.  Because everything after the
second group always succeeds (the third group may be empty), those trailing
pieces are matched deterministically.
-/

/-- Membership in the character class `[I|IV|V|VI|5\.\d]`. -/
def diffClassChar (c : Char) : Bool :=
  c = 'I' || c = '|' || c = 'V' || c = '5' || c = '.' || c.isDigit

/-- Membership in the modifier class `[+|-]`. -/
def modChar (c : Char) : Bool :=
  c = '+' || c = '|' || c = '-'

/-- All splits of `l` into a prefix of at most `n` characters satisfying `p`
and the remaining suffix, listed longest prefix first: the order in which a
greedy `{m,n}` quantifier visits them. -/
def greedySplits (p : Char → Bool) : ℕ → List Char → List (List Char × List Char)
  | 0, l => [([], l)]
  | _ + 1, [] => [([], [])]
  | n + 1, c :: rest =>
    if p c then
      ((greedySplits p n rest).map fun s => (c :: s.1, s.2)) ++ [([], c :: rest)]
    else [([], c :: rest)]

/-- Candidate matches of the optional first group `([I|IV|V|VI|5\.\d]{1,3}(?=-))?`:
each non-empty class prefix whose lookahead sees a `-` (longest first, the
lookahead consuming nothing), followed by the skip alternative. -/
def group1Candidates (l : List Char) : List (Option (List Char) × List Char) :=
  ((greedySplits diffClassChar 3 l).filterMap fun s =>
    match s.2 with
    | '-' :: _ => if s.1.length ≥ 1 then some (some s.1, s.2) else none
    | _ => none) ++ [(none, l)]

/-- Candidates for the optional literal `-?`: consume it when present, then skip. -/
def dashCandidates (l : List Char) : List (List Char) :=
  match l with
  | '-' :: rest => [rest, l]
  | _ => [l]

/-- The longest prefix of at most `n` characters satisfying `p`. -/
def takeUpTo (p : Char → Bool) : ℕ → List Char → List Char
  | 0, _ => []
  | _ + 1, [] => []
  | n + 1, c :: rest => if p c then c :: takeUpTo p n rest else []

/-- Match of the second group `([I|IV|V|VI|5\.\d]{1,3}[+|-]?)`: at least one
class character.  Everything after this group in the pattern always succeeds,
so the greedy longest choice is the one the engine keeps. -/
def group2Match (l : List Char) : Option (List Char × List Char) :=
  let a := takeUpTo diffClassChar 3 l
  if a.length ≥ 1 then
    match l.drop a.length with
    | c :: rest => if modChar c then some (a ++ [c], rest) else some (a, l.drop a.length)
    | [] => some (a, [])
  else none

/-- Match of `\(?` then the third group `([I|IV|V|VI|5\.\d]{0,3}[+|-]?)`:
always succeeds, possibly capturing the empty string. -/
def group3Match (l : List Char) : List Char :=
  let l1 := match l with
    | '(' :: rest => rest
    | _ => l
  let a := takeUpTo diffClassChar 3 l1
  match l1.drop a.length with
  | c :: _ => if modChar c then a ++ [c] else a
  | [] => a

/-- The full anchored match of the difficulty pattern: the backtracking search
over the first-group and dash alternatives, returning the three captured
groups of the first successful branch (`re.match` returning `None` when the
whole pattern cannot match). -/
def matchDifficulty (l : List Char) : Option (Option (List Char) × List Char × List Char) :=
  (group1Candidates l).findSome? fun g1c =>
    (dashCandidates g1c.2).findSome? fun rest2 =>
      (group2Match rest2).map fun g2r =>
        (g1c.1, g2r.1, group3Match g2r.2)

/-- `Reach._get_if_length`: a captured group that is `None` or empty becomes
`None`; a non-empty capture is kept. -/
def get_if_length (m : Option String) : Option String :=
  match m with
  | some s => if s.length ≠ 0 then some s else none
  | none => none

/-- `Reach._parse_difficulty_string`: apply the regular expression to the
combined difficulty string and pass each captured group through
`_get_if_length`, yielding `(difficulty_minimum, difficulty_maximum,
difficulty_outlier)`.  A string the pattern does not match at all raises in
Python (`match.group` on `None`), modelled as `none`. -/
def parse_difficulty (s : String) : Option (Option String × Option String × Option String) :=
  match matchDifficulty s.data with
  | none => none
  | some (g1, g2, g3) =>
    some (get_if_length (g1.map fun cs => String.mk cs),
          get_if_length (some (String.mk g2)),
          get_if_length (some (String.mk g3)))

/-- C6: the difficulty parser maps `"IV-V(V+)"` to minimum `"IV"`, maximum
`"V"`, outlier `"V+"`; maps `"III"` to minimum `none`, maximum `"III"`,
outlier `none`; and an empty captured group becomes `none`, never the empty
string (on `"III"` the third group captures the empty string and is nulled,
and `_get_if_length` sends the empty capture to `None`). -/
theorem parse_difficulty_spec :
    parse_difficulty "IV-V(V+)" = some (some "IV", some "V", some "V+") ∧
    parse_difficulty "III" = some (none, some "III", none) ∧
    get_if_length (some "") = none := by
  refine ⟨by decide, by decide, by decide⟩

end WaterReach

namespace WaterReach

/-!
Embedding of the hydroline resolution pipeline (`Reach.get_hydroline`,
reach.py lines 1042-1201) and of the put-in/take-out setter
(`Reach._set_putin_takeout`, lines 978-1001).

Geometries are modelled abstractly: a point is a pair of rationals and a
polyline is a list of points.  The external services (the EPA WATERS point
indexing and navigation services, the Esri Hydrology watershed and
trace_downstream services) and the pure geometry helpers (`snap_to_line`,
`trim_at_point`, `_smooth_geometry`) are collaborators whose per-call results
are supplied by an `Env` oracle; the events recorded in the returned log mark
the service invocations performed by the pass.
-/

/-- A 2-D point geometry. -/
structure Pt where
  x : ℚ
  y : ℚ
deriving DecidableEq

/-- A polyline as its list of coordinate pairs (one path). -/
abbrev Poly := List Pt

/-- The fields of a `ReachPoint` relevant to the resolution pipeline. -/
structure RPoint where
  geometry : Option Pt
  point_type : Option String
  subtype : Option String
  nhdplus_measure : Option ℚ
  nhdplus_reach_id : Option ℤ
deriving DecidableEq

/-- The fields of a `Reach` touched by the resolution pipeline. -/
structure ReachState where
  reach_points : List RPoint
  geometry : Option Poly
  tracing_method : Option String
  error : Option Bool
  notes : String
deriving DecidableEq

/-- The point-snap result of the EPA point indexing service
(`WATERS.get_epa_snap_point`): a snapped geometry plus the NHD Plus
measure and reach id. -/
structure SnapPt where
  geometry : Pt
  measure : ℚ
  id : ℤ
deriving DecidableEq

/-- Outcome of an external service call that can raise: `raise` models a
Python exception escaping the call, `ok` a returned value. -/
inductive SvcResp (α : Type) where
  | raise : SvcResp α
  | ok (a : α) : SvcResp α
deriving DecidableEq

/-- Outcome of one iteration of the primary trace loop (the `try` block of
reach.py lines 1080-1114): `raiseEarly` is an exception before the take-out
geometry is reassigned (in the navigation trace or in `snap_to_line`);
`raiseAfterSnap` is an exception in the take-out EPA snap, after the take-out
geometry was reassigned; `ok` is a completed block with the take-out EPA snap
returning `takeoutSnap` (`none` when the service located nothing). -/
inductive PrimaryAttempt where
  | raiseEarly : PrimaryAttempt
  | raiseAfterSnap (trace : Poly) : PrimaryAttempt
  | ok (trace : Poly) (takeoutSnap : Option SnapPt) : PrimaryAttempt

/-- Service calls made by a resolution pass, in order. -/
inductive Event where
  | primarySnapPutin : Event
  | primaryTraceDownstream : Event
  | takeoutSnapNhd : Event
  | watershedSnap : Event
  | secondaryTraceDownstream : Event
deriving DecidableEq

/-- The oracle fixing the behaviour of every external collaborator during one
resolution pass. -/
structure Env where
  /-- `putin.snap_to_nhdplus()`: result of the EPA point indexing call for the
  put-in (`ok none` models the service returning `False`, point not found). -/
  putin_snap : SvcResp (Option SnapPt)
  /-- Outcome of the `k`-th iteration of the primary trace loop. -/
  primary : ℕ → PrimaryAttempt
  /-- The pure geometric snap `point.snap_to_line(line)`. -/
  snap_to_line : Pt → Poly → Pt
  /-- The pure trim `line.trim_at_point(point)`. -/
  trim_at_point : Poly → Pt → Poly
  /-- `hydrology.watershed(...)` on the put-in: `ok none` models no snapped
  point in the response, `ok (some p)` the snapped put-in location. -/
  watershed_snap : SvcResp (Option Pt)
  /-- The `k`-th `hydrology.trace_downstream(...)` attempt: `none` models the
  call raising (caught and retried); `some (line, res)` a trace polyline with
  its reported `DataResolution`. -/
  secondary_trace : ℕ → Option (Poly × ℚ)
  /-- `_smooth_geometry(line, densify_max_segment_length)`. -/
  smooth : Poly → ℚ → Poly

/-- Is `p` an access point of the given subtype
(`pt.subtype == access_type and pt.point_type == 'access'`)? -/
def isAccessOf (ty : String) (p : RPoint) : Bool :=
  p.subtype == some ty && p.point_type == some "access"

/-- `Reach._get_access_list_by_type`: the reach points filtered to accesses of
the given subtype. -/
def access_list (r : ReachState) (ty : String) : List RPoint :=
  r.reach_points.filter (isAccessOf ty)

/-- The `Reach.putin` property: the first put-in access, if any. -/
def reach_putin (r : ReachState) : Option RPoint :=
  (access_list r "putin").head?

/-- The `Reach.takeout` property: the first take-out access, if any. -/
def reach_takeout (r : ReachState) : Option RPoint :=
  (access_list r "takeout").head?

/-- Update the first list element satisfying `p` (the source mutates the
object returned by the `putin`/`takeout` property, which is the first match
of the filtered list, in place). -/
def update_first {α : Type} (p : α → Bool) (f : α → α) : List α → List α
  | [] => []
  | x :: xs => if p x then f x :: xs else x :: update_first p f xs

/-- Apply an EPA snap result to a reach point (`ReachPoint.snap_to_nhdplus`
when the service finds a point: geometry, measure and reach id are set). -/
def applySnapPt (sp : SnapPt) (p : RPoint) : RPoint :=
  { p with geometry := some sp.geometry,
           nhdplus_measure := some sp.measure,
           nhdplus_reach_id := some sp.id }

/-- Reassign the geometry of the take-out point (`self.takeout.geometry = g`;
the geometry setter accepts any point geometry). -/
def set_takeout_geometry (r : ReachState) (g : Pt) : ReachState :=
  { r with reach_points :=
      update_first (isAccessOf "takeout") (fun p => { p with geometry := some g }) r.reach_points }

/-- Apply the take-out EPA snap outcome (`self.takeout.snap_to_nhdplus()`):
fields are updated only when the service located a point. -/
def apply_takeout_snap (r : ReachState) (res : Option SnapPt) : ReachState :=
  match res with
  | none => r
  | some sp =>
    { r with reach_points :=
        update_first (isAccessOf "takeout") (applySnapPt sp) r.reach_points }

/-- Reassign the geometry of the put-in point (fallback branch, line 1140). -/
def set_putin_geometry (r : ReachState) (g : Pt) : ReachState :=
  { r with reach_points :=
      update_first (isAccessOf "putin") (fun p => { p with geometry := some g }) r.reach_points }

/-- The default reach point used to totalize `Option` projections on access
points the source dereferences unconditionally. -/
def defaultRPoint : RPoint :=
  ⟨none, none, none, none, none⟩

/-- The put-in access the source dereferences (`self.putin....`). -/
def putinD (r : ReachState) : RPoint :=
  (reach_putin r).getD defaultRPoint

/-- The take-out access the source dereferences (`self.takeout....`). -/
def takeoutD (r : ReachState) : RPoint :=
  (reach_takeout r).getD defaultRPoint

end WaterReach

namespace WaterReach

/-- Note set when an access is missing (reach.py line 1052). -/
def missingAccessNote : String :=
  "Reach does not appear to have both a put-in and take-out location defined."

/-- Note set when the take-out EPA snap finds nothing (line 1102, source typo kept). -/
def takeoutNotFoundNote : String :=
  "Takeout could not be located using EPS\x27s WATERS service"

/-- Note set when the watershed snap finds nothing (line 1146). -/
def putinNotFoundNote : String :=
  "Put-in could not be located with neither WATERS nor Esri Hydrology services."

/-- Final note when no tracing method succeeded (lines 1198-1199, source typo kept). -/
def couldNotTraceNote : String :=
  "The reach could not be trace with neither the EPA\x27s WATERS service nor the Esri Hydrology services."

/-- Result of the primary trace loop: `done r traced log` is an exit of the
`while` loop (by `break` with `traced = true`, or because `attempts`
reached 5); `hang` marks fuel exhaustion while the loop would keep running
(the source loop does not increment `attempts` on the takeout-not-located
path, so it can iterate without bound). -/
inductive LoopRes where
  | done (r : ReachState) (traced : Bool) (log : List Event)
  | hang (log : List Event)

/-- Prepend events to the log of a loop result. -/
def LoopRes.consLog (l : List Event) : LoopRes → LoopRes
  | .done r t log => .done r t (l ++ log)
  | .hang log => .hang (l ++ log)

/-- The primary trace loop of `get_hydroline` (reach.py lines 1075-1114):
`attempts` is the Python counter (incremented only when the `try` block
raises), `iter` indexes the per-iteration oracle, `fuel` bounds the modelled
iterations. -/
def primary_loop (env : Env) : ℕ → ℕ → ℕ → ReachState → LoopRes
  | 0, attempts, _, r => if attempts < 5 then .hang [] else .done r false []
  | fuel + 1, attempts, iter, r =>
    if attempts < 5 then
      match env.primary iter with
      | .raiseEarly =>
        (primary_loop env fuel (attempts + 1) (iter + 1) r).consLog [.primaryTraceDownstream]
      | .raiseAfterSnap trace =>
        let tg := env.snap_to_line ((takeoutD r).geometry.getD ⟨0, 0⟩) trace
        let r1 := set_takeout_geometry r tg
        (primary_loop env fuel (attempts + 1) (iter + 1) r1).consLog
          [.primaryTraceDownstream, .takeoutSnapNhd]
      | .ok trace toSnap =>
        let tg := env.snap_to_line ((takeoutD r).geometry.getD ⟨0, 0⟩) trace
        let r1 := set_takeout_geometry r tg
        let r2 := apply_takeout_snap r1 toSnap
        let tk := takeoutD r2
        if tk.nhdplus_measure = none ∨ tk.nhdplus_reach_id = none then
          let r3 := { r2 with error := some true, notes := takeoutNotFoundNote }
          (primary_loop env fuel attempts (iter + 1) r3).consLog
            [.primaryTraceDownstream, .takeoutSnapNhd]
        else
          .done { r2 with
                    geometry := some (env.trim_at_point trace (tk.geometry.getD ⟨0, 0⟩)),
                    tracing_method := some "EPA WATERS NHD Plus v2" }
            true [.primaryTraceDownstream, .takeoutSnapNhd]
    else .done r false []

/-- The secondary trace retry loop (reach.py lines 1149-1161): up to 10
`hydrology.trace_downstream` attempts, stopping at the first that does not
raise; returns the trace response (if any) and the calls made. -/
def secondary_loop (env : Env) : ℕ → ℕ → Option (Poly × ℚ) × List Event
  | 0, _ => (none, [])
  | fuel + 1, k =>
    match env.secondary_trace k with
    | some res => (some res, [.secondaryTraceDownstream])
    | none =>
      let rest := secondary_loop env fuel (k + 1)
      (rest.1, .secondaryTraceDownstream :: rest.2)

/-- Outcome of a resolution pass: a normal return carrying the final reach
state and the returned `trace_status`; an uncaught exception escaping
`get_hydroline` with the state as mutated so far; or non-termination of the
primary loop. -/
inductive HydroOutcome where
  | ret (r : ReachState) (trace_status : Bool)
  | exn (r : ReachState)
  | hang
deriving DecidableEq

/-- The fallback branch of `get_hydroline` (reach.py lines 1117-1193), entered
when the primary path produced no trace.  When the watershed response contains
a snapped point the source updates the put-in geometry and then calls
`self.set_putin(putin)` - a method `Reach` does not define - so an
`AttributeError` escapes; when it does not, `error`/`notes` are set and the
secondary trace loop still runs, its response discarded by the
`if trace_resp and not self.error` guard. -/
def fallback_branch (env : Env) (r : ReachState) : HydroOutcome × List Event :=
  match env.watershed_snap with
  | .raise => (.exn r, [.watershedSnap])
  | .ok (some pt) =>
    (.exn (set_putin_geometry r pt), [.watershedSnap])
  | .ok none =>
    let r1 := { r with error := some true, notes := putinNotFoundNote }
    let tr := secondary_loop env 10 0
    match tr.1 with
    | some (traceGeom, dataRes) =>
      if r1.error = some true then (.ret r1 false, .watershedSnap :: tr.2)
      else
        let tg := env.snap_to_line ((takeoutD r1).geometry.getD ⟨0, 0⟩) traceGeom
        let r2 := set_takeout_geometry r1 tg
        let line := env.trim_at_point traceGeom tg
        let geom := if 2 * line.length > 6 then env.smooth line (dataRes * 2) else line
        (.ret { r2 with geometry := some geom,
                        tracing_method := some "ArcGIS Online Hydrology Services" } true,
         .watershedSnap :: tr.2)
    | none => (.ret r1 false, .watershedSnap :: tr.2)

/-- The code following the primary trace loop (reach.py lines 1116-1201):
when the loop produced a trace the pass returns it, otherwise the fallback
branch runs and the final `if not trace_status` annotation sets `error` and
the closing note. -/
def after_primary (env : Env) : LoopRes → HydroOutcome × List Event
  | .hang log => (.hang, log)
  | .done r2 true log => (.ret r2 true, log)
  | .done r2 false log =>
    let fb := fallback_branch env r2
    match fb.1 with
    | .exn r3 => (.exn r3, log ++ fb.2)
    | .hang => (.hang, log ++ fb.2)
    | .ret r3 fbStatus =>
      if fbStatus then (.ret r3 true, log ++ fb.2)
      else (.ret { r3 with error := some true, notes := couldNotTraceNote } false, log ++ fb.2)

/-- The body of `get_hydroline` after the put-in EPA snap: decide
`nhd_status` from the put-in measure and reach id, run the primary loop when
they resolved (`trace_status` stays `False` and the loop is skipped
otherwise), then continue with `after_primary` (reach.py lines 1062-1201). -/
def hydroline_rest (env : Env) (fuel : ℕ) (r1 : ReachState) : HydroOutcome × List Event :=
  after_primary env
    (if (putinD r1).nhdplus_measure = none ∨ (putinD r1).nhdplus_reach_id = none
     then LoopRes.done r1 false []
     else primary_loop env fuel 0 0 r1)

/-- `Reach.get_hydroline` (reach.py lines 1042-1201): require both accesses,
snap the put-in to NHD Plus (mutating it when the service finds a point, and
propagating an uncaught transport exception), then run the trace/fallback
pipeline. -/
def get_hydroline (env : Env) (fuel : ℕ) (r0 : ReachState) : HydroOutcome × List Event :=
  match reach_putin r0, reach_takeout r0 with
  | some p, some _ =>
    if p.geometry.isSome then
      match env.putin_snap with
      | .raise => (.exn r0, [.primarySnapPutin])
      | .ok none =>
        let res := hydroline_rest env fuel r0
        (res.1, .primarySnapPutin :: res.2)
      | .ok (some sp) =>
        let r1 := { r0 with
          reach_points := update_first (isAccessOf "putin") (applySnapPt sp) r0.reach_points }
        let res := hydroline_rest env fuel r1
        (res.1, .primarySnapPutin :: res.2)
    else hydroline_rest env fuel r0
  | _, _ =>
    (.ret { r0 with error := some true, notes := missingAccessNote } false, [])

/-- A Python `assert cond, msg`: `AssertionError` (modelled as `Except.error`)
when the condition is false. -/
def pyAssert (cond : Bool) (msg : String) : Except String Unit :=
  if cond then .ok () else .error msg

/-- `Reach._set_putin_takeout` (reach.py lines 978-1001).  The first source
assertion is `assert type(access) != ReachPoint` - here `access` always is a
`ReachPoint`, so the asserted condition is `false` - and the second is
`assert access_type != 'putin' and access_type != 'takeout'`; on passing both,
points of the given subtype are filtered out and the new access appended. -/
def set_putin_takeout (r : ReachState) (access : RPoint) (access_type : String) :
    Except String ReachState := do
  let _ ← pyAssert false (access_type ++ " access must be an instance of ReachPoint object type")
  let _ ← pyAssert (access_type != "putin" && access_type != "takeout")
      "access type must be either \x22putin\x22 or \x22takeout\x22"
  let pts := r.reach_points.filter fun pt => pt.subtype != some access_type
  let acc := { access with point_type := some "access", subtype := some access_type }
  return { r with reach_points := pts ++ [acc] }

end WaterReach

namespace WaterReach

/-!
Embedding of the two transport retry loops the retry-bound claim cites:
`WATERS._get_epa_downstream_navigation_response` (epa_waters.py lines 67-109)
and `Reach._download_raw_json_from_aw` (reach.py lines 351-367).  The oracle
functions give the HTTP status (and, for the AW download, the content length)
of the `k`-th request.
-/

/-- The retry loop of `WATERS._get_epa_downstream_navigation_response`:
`while attempts < 10 and status_code != 200`, one GET per iteration, then
`attempts` is incremented and `status_code` set from the response; the last
response is returned afterwards whether or not it succeeded - the function
never raises.  Result: (requests made, status of the returned response). -/
def epa_navigation_loop (status : ℕ → ℕ) : ℕ → ℕ → ℕ → ℕ × ℕ
  | 0, attempts, code => (attempts, code)
  | fuel + 1, attempts, code =>
    if attempts < 10 ∧ code ≠ 200 then
      epa_navigation_loop status fuel (attempts + 1) (status attempts)
    else (attempts, code)

/-- `WATERS._get_epa_downstream_navigation_response`: the loop starts from
`attempts = 0`, `status_code = 0`; `attempts` grows by one every iteration, so
eleven fuel units always suffice to reach the loop exit. -/
def get_epa_downstream_navigation_response (status : ℕ → ℕ) : ℕ × ℕ :=
  epa_navigation_loop status 11 0 0

/-- The possible results of `Reach._download_raw_json_from_aw`: parsed JSON,
the `False` no-such-reach result (a blank 200 response or a 500 status), or
the post-loop raise.  (The raise itself is botched in the source - the message
formats `self['reach_id']` and `Reach` is not subscriptable, so a `TypeError`
is raised instead of the intended `Exception` - either way the call fails.) -/
inductive AwResult where
  | json : AwResult
  | noReach : AwResult
  | raised : AwResult
deriving DecidableEq

/-- The retry loop of `Reach._download_raw_json_from_aw`:
`while attempts < 10 and status_code != 200` - but `status_code` is never
reassigned in the body, so only `attempts < 10` is effective; one GET per
iteration; a non-blank 200 returns the JSON, a blank 200 or a 500 returns
`False`, anything else increments `attempts`; the loop falling through
raises.  `reqs` counts requests made and indexes the oracles; it coincides
with `attempts` at every loop test.  Result: (outcome, requests made). -/
def aw_download_loop (status clen : ℕ → ℕ) : ℕ → ℕ → AwResult × ℕ
  | 0, reqs => (.raised, reqs)
  | fuel + 1, reqs =>
    if reqs < 10 then
      if status reqs = 200 ∧ clen reqs ≠ 0 then (.json, reqs + 1)
      else if status reqs = 200 ∧ clen reqs = 0 then (.noReach, reqs + 1)
      else if status reqs = 500 then (.noReach, reqs + 1)
      else aw_download_loop status clen fuel (reqs + 1)
    else (.raised, reqs)

/-- `Reach._download_raw_json_from_aw`, starting from zero attempts. -/
def download_raw_json_from_aw (status clen : ℕ → ℕ) : AwResult × ℕ :=
  aw_download_loop status clen 11 0

lemma epa_navigation_loop_all_fail (status : ℕ → ℕ) (h : ∀ k, status k ≠ 200) :
    ∀ fuel attempts, attempts + fuel = 11 → attempts ≤ 10 →
      epa_navigation_loop status fuel attempts
        (if attempts = 0 then 0 else status (attempts - 1)) = (10, status 9) := by
  intro fuel
  induction fuel with
  | zero =>
    intro attempts h1 h2
    omega
  | succ n ih =>
    intro attempts h1 h2
    have hcode : (if attempts = 0 then 0 else status (attempts - 1)) ≠ 200 := by
      split
      · omega
      · exact h _
    rw [epa_navigation_loop]
    by_cases h10 : attempts < 10
    · rw [if_pos ⟨h10, hcode⟩]
      have hstep := ih (attempts + 1) (by omega) (by omega)
      have : (if attempts + 1 = 0 then 0 else status (attempts + 1 - 1)) = status attempts := by
        simp
      rw [this] at hstep
      exact hstep
    · have ha : attempts = 10 := by omega
      rw [if_neg (by rw [ha]; omega)]
      subst ha
      simp

lemma aw_download_loop_all_fail (status clen : ℕ → ℕ)
    (h : ∀ k, status k ≠ 200 ∧ status k ≠ 500) :
    ∀ fuel reqs, reqs + fuel = 11 → reqs ≤ 10 →
      aw_download_loop status clen fuel reqs = (.raised, 10) := by
  intro fuel
  induction fuel with
  | zero =>
    intro reqs h1 h2
    omega
  | succ n ih =>
    intro reqs h1 h2
    rw [aw_download_loop]
    by_cases h10 : reqs < 10
    · rw [if_pos h10, if_neg (fun hc => (h reqs).1 hc.1),
        if_neg (fun hc => (h reqs).1 hc.1), if_neg (h reqs).2]
      exact ih (reqs + 1) (by omega) (by omega)
    · have ha : reqs = 10 := by omega
      rw [if_neg h10, ha]

/-- C7 counterexample: the geometry-returning downstream navigation trace call,
when every attempt returns status 404, is attempted 10 times - not the claimed
5 - and then returns the last failed response to its caller instead of raising
a ServiceUnavailable error. -/
theorem epa_navigation_cap_ten_not_five :
    get_epa_downstream_navigation_response (fun _ => 404) = (10, 404) ∧ (10 : ℕ) ≠ 5 := by
  refine ⟨by decide, by decide⟩

/-- C7 (amended): a transport call whose every attempt fails is attempted
exactly 10 times for both cited helpers: the EPA downstream navigation
response helper then returns its last failed response without raising, and the
AW raw-JSON download (every attempt returning a status other than 200 and 500)
then raises. -/
theorem transport_retry_caps (nav_status aw_status aw_clen : ℕ → ℕ)
    (h1 : ∀ k, nav_status k ≠ 200)
    (h2 : ∀ k, aw_status k ≠ 200 ∧ aw_status k ≠ 500) :
    get_epa_downstream_navigation_response nav_status = (10, nav_status 9) ∧
    download_raw_json_from_aw aw_status aw_clen = (AwResult.raised, 10) := by
  constructor
  · have := epa_navigation_loop_all_fail nav_status h1 11 0 (by omega) (by omega)
    simpa [get_epa_downstream_navigation_response] using this
  · exact aw_download_loop_all_fail aw_status aw_clen h2 11 0 (by omega) (by omega)

/-- Witness for the amended C7 theorem with every request returning 404. -/
theorem transport_retry_caps_witness :
    get_epa_downstream_navigation_response (fun _ => 404) = (10, 404) ∧
    download_raw_json_from_aw (fun _ => 404) (fun _ => 0) = (AwResult.raised, 10) :=
  ⟨(transport_retry_caps (fun _ => 404) (fun _ => 404) (fun _ => 0)
      (fun _ => by simp) (fun _ => ⟨by simp, by simp⟩)).1,
   (transport_retry_caps (fun _ => 404) (fun _ => 404) (fun _ => 0)
      (fun _ => by simp) (fun _ => ⟨by simp, by simp⟩)).2⟩

end WaterReach

namespace WaterReach

/-- A put-in access with geometry but no NHD Plus fields yet (a freshly parsed
reach point). -/
def piPoint : RPoint := ⟨some ⟨0, 0⟩, some "access", some "putin", none, none⟩

/-- A take-out access with geometry but no NHD Plus fields yet. -/
def toPoint : RPoint := ⟨some ⟨1, 1⟩, some "access", some "takeout", none, none⟩

/-- A freshly parsed reach: a put-in and a take-out, no geometry, no tracing
method, no error. -/
def freshReach : ReachState := ⟨[piPoint, toPoint], none, none, none, ""⟩

/-- A reach with no points at all. -/
def emptyReach : ReachState := ⟨[], none, none, none, ""⟩

/-- The state `get_hydroline` leaves on a reach with no accesses. -/
def missingState : ReachState := ⟨[], none, none, some true, missingAccessNote⟩

/-- An environment in which every external service fails to locate anything:
the EPA point indexing returns nothing, every primary attempt raises, the
watershed finds no snapped point, and every secondary trace raises. -/
def allFailEnv : Env :=
  ⟨SvcResp.ok none, fun _ => PrimaryAttempt.raiseEarly, fun p _ => p, fun l _ => l,
   SvcResp.ok none, fun _ => none, fun l _ => l⟩

lemma putinD_eq (r : ReachState) (p : RPoint) (hput : reach_putin r = some p) :
    putinD r = p := by
  rw [putinD, hput, Option.getD_some]

lemma secondary_loop_events (env : Env) :
    ∀ f k e, e ∈ (secondary_loop env f k).2 → e = Event.secondaryTraceDownstream := by
  intro f
  induction f with
  | zero =>
    intro k e he
    simp [secondary_loop] at he
  | succ n ih =>
    intro k e he
    rw [secondary_loop] at he
    cases hsk : env.secondary_trace k with
    | none =>
      rw [hsk] at he
      rcases List.mem_cons.mp he with h | h
      · exact h
      · exact ih (k + 1) e h
    | some res =>
      rw [hsk] at he
      simpa using he

lemma secondary_loop_head_mem (env : Env) (f k : ℕ) :
    Event.secondaryTraceDownstream ∈ (secondary_loop env (f + 1) k).2 := by
  rw [secondary_loop]
  cases env.secondary_trace k <;> simp

lemma fallback_branch_watershed_mem (env : Env) (r : ReachState) :
    Event.watershedSnap ∈ (fallback_branch env r).2 := by
  rw [fallback_branch]
  cases env.watershed_snap with
  | raise => simp
  | ok o =>
    cases o with
    | some pt => simp
    | none =>
      cases htr : (secondary_loop env 10 0).1 with
      | none => simp [htr]
      | some v =>
        obtain ⟨tg, dr⟩ := v
        simp [htr]

lemma fallback_branch_no_primary (env : Env) (r : ReachState) :
    Event.primaryTraceDownstream ∉ (fallback_branch env r).2 := by
  rw [fallback_branch]
  cases env.watershed_snap with
  | raise => simp
  | ok o =>
    cases o with
    | some pt => simp
    | none =>
      cases htr : (secondary_loop env 10 0).1 with
      | none =>
        simp only [htr]
        intro hmem
        rcases List.mem_cons.mp hmem with h | h
        · exact Event.noConfusion h
        · exact Event.noConfusion (secondary_loop_events env 10 0 _ h)
      | some v =>
        obtain ⟨tg, dr⟩ := v
        simp only [htr]
        intro hmem
        rcases List.mem_cons.mp hmem with h | h
        · exact Event.noConfusion h
        · exact Event.noConfusion (secondary_loop_events env 10 0 _ h)

lemma fallback_branch_not_found (env : Env) (r : ReachState)
    (hws : env.watershed_snap = SvcResp.ok none) :
    fallback_branch env r =
      (HydroOutcome.ret { r with error := some true, notes := putinNotFoundNote } false,
       Event.watershedSnap :: (secondary_loop env 10 0).2) := by
  rw [fallback_branch, hws]
  cases htr : (secondary_loop env 10 0).1 with
  | none => simp [htr]
  | some v =>
    obtain ⟨tg, dr⟩ := v
    simp [htr]

lemma hydroline_rest_no_nhd (env : Env) (fuel : ℕ) (r : ReachState) (p : RPoint)
    (hput : reach_putin r = some p) (hmeas : p.nhdplus_measure = none) :
    hydroline_rest env fuel r = after_primary env (LoopRes.done r false []) := by
  rw [hydroline_rest, putinD_eq r p hput, if_pos (Or.inl hmeas)]

lemma after_primary_done_false_snd (env : Env) (r : ReachState) :
    (after_primary env (LoopRes.done r false [])).2 = (fallback_branch env r).2 := by
  cases hfb : (fallback_branch env r).1 with
  | ret r3 b => cases b <;> simp [after_primary, hfb]
  | exn r3 => simp [after_primary, hfb]
  | hang => simp [after_primary, hfb]

lemma after_primary_fallback_not_found (env : Env) (r : ReachState)
    (hws : env.watershed_snap = SvcResp.ok none) :
    after_primary env (LoopRes.done r false []) =
      (HydroOutcome.ret { r with error := some true, notes := couldNotTraceNote } false,
       Event.watershedSnap :: (secondary_loop env 10 0).2) := by
  have hfb := fallback_branch_not_found env r hws
  simp [after_primary, hfb]

lemma get_hydroline_snap_none (env : Env) (fuel : ℕ) (r : ReachState) (p t : RPoint)
    (hput : reach_putin r = some p) (htake : reach_takeout r = some t)
    (hsnap : env.putin_snap = SvcResp.ok none) :
    get_hydroline env fuel r =
      ((hydroline_rest env fuel r).1, (hydroline_rest env fuel r).2) ∨
    get_hydroline env fuel r =
      ((hydroline_rest env fuel r).1,
       Event.primarySnapPutin :: (hydroline_rest env fuel r).2) := by
  cases hpg : p.geometry with
  | none => left; simp [get_hydroline, hput, htake, hpg]
  | some g => right; simp [get_hydroline, hput, htake, hpg, hsnap]

/-- C3: for every reach with both a put-in and a take-out whose put-in EPA
network snap obtains no NHD Plus measure (NotFound), the resolution pass never
invokes the primary downstream navigation trace and control reaches the
fallback branch, whose first action is the secondary watershed snap call. -/
theorem get_hydroline_snap_notfound_fallback (env : Env) (fuel : ℕ) (r : ReachState)
    (p t : RPoint) (hput : reach_putin r = some p) (htake : reach_takeout r = some t)
    (hsnap : env.putin_snap = SvcResp.ok none) (hmeas : p.nhdplus_measure = none) :
    Event.primaryTraceDownstream ∉ (get_hydroline env fuel r).2 ∧
    Event.watershedSnap ∈ (get_hydroline env fuel r).2 := by
  have hrest : (hydroline_rest env fuel r).2 = (fallback_branch env r).2 := by
    rw [hydroline_rest_no_nhd env fuel r p hput hmeas, after_primary_done_false_snd]
  have hw := fallback_branch_watershed_mem env r
  have hnp := fallback_branch_no_primary env r
  rcases get_hydroline_snap_none env fuel r p t hput htake hsnap with h | h <;>
    rw [h]
  · exact ⟨by rw [hrest]; exact hnp, by rw [hrest]; exact hw⟩
  · constructor
    · intro hmem
      rcases List.mem_cons.mp hmem with hc | hc
      · exact Event.noConfusion hc
      · rw [hrest] at hc; exact hnp hc
    · exact List.mem_cons_of_mem _ (by rw [hrest]; exact hw)

/-- Witness for the C3 theorem: a fresh reach with both accesses in the
all-services-fail environment. -/
theorem get_hydroline_snap_notfound_fallback_witness :
    reach_putin freshReach = some piPoint ∧
    reach_takeout freshReach = some toPoint ∧
    allFailEnv.putin_snap = SvcResp.ok none ∧
    piPoint.nhdplus_measure = none ∧
    Event.primaryTraceDownstream ∉ (get_hydroline allFailEnv 12 freshReach).2 ∧
    Event.watershedSnap ∈ (get_hydroline allFailEnv 12 freshReach).2 :=
  ⟨rfl, rfl, rfl, rfl,
   (get_hydroline_snap_notfound_fallback allFailEnv 12 freshReach piPoint toPoint
      rfl rfl rfl rfl).1,
   (get_hydroline_snap_notfound_fallback allFailEnv 12 freshReach piPoint toPoint
      rfl rfl rfl rfl).2⟩

end WaterReach

namespace WaterReach

/-- The notes of a normally returned pass, `none` for an exception or hang. -/
def ret_notes : HydroOutcome → Option String
  | .ret r _ => some r.notes
  | _ => none

/-- C8 counterexample: with the put-in unresolvable by either service, the
pass ends with the generic could-not-trace note - not the claimed
"no access located via either service" - and the secondary downstream trace
is still invoked (its response is discarded). -/
theorem fallback_note_and_secondary_trace_cex :
    ret_notes (get_hydroline allFailEnv 12 freshReach).1 ≠
      some "no access located via either service" ∧
    Event.secondaryTraceDownstream ∈ (get_hydroline allFailEnv 12 freshReach).2 := by
  refine ⟨by decide, by decide⟩

/-- C8 (amended): when the fallback branch is entered (put-in EPA snap obtained
no measure) and the secondary watershed snap cannot locate the put-in, the pass
ends failed: `error` is set, the final notes are the could-not-trace message
(the put-in-not-found note having been overwritten by the closing
`if not trace_status` annotation), geometry and tracing method are left
unchanged - but the secondary downstream trace is still invoked, its response
discarded by the `not self.error` guard. -/
theorem get_hydroline_fallback_putin_not_found (env : Env) (fuel : ℕ) (r : ReachState)
    (p t : RPoint) (hput : reach_putin r = some p) (htake : reach_takeout r = some t)
    (hsnap : env.putin_snap = SvcResp.ok none) (hmeas : p.nhdplus_measure = none)
    (hws : env.watershed_snap = SvcResp.ok none) :
    (get_hydroline env fuel r).1 =
      HydroOutcome.ret { r with error := some true, notes := couldNotTraceNote } false ∧
    Event.secondaryTraceDownstream ∈ (get_hydroline env fuel r).2 := by
  have hred : hydroline_rest env fuel r =
      (HydroOutcome.ret { r with error := some true, notes := couldNotTraceNote } false,
       Event.watershedSnap :: (secondary_loop env 10 0).2) := by
    rw [hydroline_rest_no_nhd env fuel r p hput hmeas]
    exact after_primary_fallback_not_found env r hws
  have hsec : Event.secondaryTraceDownstream ∈ (secondary_loop env 10 0).2 := by
    simpa using secondary_loop_head_mem env 9 0
  rcases get_hydroline_snap_none env fuel r p t hput htake hsnap with h | h <;> rw [h, hred]
  · exact ⟨rfl, List.mem_cons_of_mem _ hsec⟩
  · exact ⟨rfl, List.mem_cons_of_mem _ (List.mem_cons_of_mem _ hsec)⟩

/-- Witness for the amended C8 theorem: the fresh two-access reach in the
all-services-fail environment. -/
theorem get_hydroline_fallback_putin_not_found_witness :
    (get_hydroline allFailEnv 12 freshReach).1 =
      HydroOutcome.ret { freshReach with error := some true, notes := couldNotTraceNote } false ∧
    Event.secondaryTraceDownstream ∈ (get_hydroline allFailEnv 12 freshReach).2 :=
  ⟨(get_hydroline_fallback_putin_not_found allFailEnv 12 freshReach piPoint toPoint
      rfl rfl rfl rfl rfl).1,
   (get_hydroline_fallback_putin_not_found allFailEnv 12 freshReach piPoint toPoint
      rfl rfl rfl rfl rfl).2⟩

end WaterReach

namespace WaterReach

/-- The data-model invariant: a non-null tracing method implies a non-null
reach geometry. -/
def geom_inv (r : ReachState) : Prop :=
  r.tracing_method ≠ none → r.geometry ≠ none

/-- The invariant read on a pass outcome (vacuous for a hung loop, which
yields no post-state). -/
def outcome_inv : HydroOutcome → Prop
  | .ret r _ => geom_inv r
  | .exn r => geom_inv r
  | .hang => True

lemma consLog_done {l : List Event} {x : LoopRes} {r : ReachState} {t : Bool}
    {log : List Event} (h : x.consLog l = LoopRes.done r t log) :
    ∃ log0, x = LoopRes.done r t log0 := by
  cases x with
  | done r0 t0 log0 =>
    rw [LoopRes.consLog] at h
    injection h with h1 h2 h3
    exact ⟨log0, by rw [h1, h2]⟩
  | hang log0 =>
    rw [LoopRes.consLog] at h
    exact LoopRes.noConfusion h

lemma geom_inv_apply_takeout_snap (r : ReachState) (res : Option SnapPt)
    (h : geom_inv r) : geom_inv (apply_takeout_snap r res) := by
  cases res <;> exact h

lemma primary_loop_inv (env : Env) :
    ∀ fuel attempts iter r, geom_inv r →
      ∀ r' t log, primary_loop env fuel attempts iter r = LoopRes.done r' t log →
        geom_inv r' := by
  intro fuel
  induction fuel with
  | zero =>
    intro a i r hr r' t log h
    rw [primary_loop] at h
    split at h
    · exact LoopRes.noConfusion h
    · injection h with h1 h2 h3
      rw [← h1]
      exact hr
  | succ n ih =>
    intro a i r hr r' t log h
    rw [primary_loop] at h
    split at h
    · cases hp : env.primary i with
      | raiseEarly =>
        rw [hp] at h
        obtain ⟨log0, h0⟩ := consLog_done h
        exact ih (a + 1) (i + 1) r hr r' t log0 h0
      | raiseAfterSnap trace =>
        rw [hp] at h
        simp only at h
        obtain ⟨log0, h0⟩ := consLog_done h
        refine ih (a + 1) (i + 1) _ ?_ r' t log0 h0
        exact hr
      | ok trace toSnap =>
        rw [hp] at h
        simp only at h
        split at h
        · obtain ⟨log0, h0⟩ := consLog_done h
          refine ih a (i + 1) _ ?_ r' t log0 h0
          exact geom_inv_apply_takeout_snap _ toSnap hr
        · injection h with h1 h2 h3
          rw [← h1]
          intro _
          simp
    · injection h with h1 h2 h3
      rw [← h1]
      exact hr

lemma fallback_branch_inv (env : Env) (r : ReachState) (hr : geom_inv r) :
    outcome_inv (fallback_branch env r).1 := by
  rw [fallback_branch]
  cases env.watershed_snap with
  | raise => exact hr
  | ok o =>
    cases o with
    | some pt => exact hr
    | none =>
      cases htr : (secondary_loop env 10 0).1 with
      | none => simpa only [htr] using hr
      | some v =>
        obtain ⟨tg, dr⟩ := v
        simp only [htr]
        split
        · exact hr
        · intro _
          simp

lemma after_primary_inv (env : Env) (pr : LoopRes)
    (h : ∀ r2 t log, pr = LoopRes.done r2 t log → geom_inv r2) :
    outcome_inv (after_primary env pr).1 := by
  cases pr with
  | hang log => trivial
  | done r2 t log =>
    have hr2 := h r2 t log rfl
    cases t with
    | true => exact hr2
    | false =>
      have hfb := fallback_branch_inv env r2 hr2
      cases hfb1 : (fallback_branch env r2).1 with
      | ret r3 b =>
        rw [hfb1] at hfb
        cases b with
        | true => simpa [after_primary, hfb1, outcome_inv] using hfb
        | false => simpa [after_primary, hfb1, outcome_inv] using hfb
      | exn r3 =>
        rw [hfb1] at hfb
        simpa [after_primary, hfb1, outcome_inv] using hfb
      | hang =>
        simp [after_primary, hfb1, outcome_inv]

lemma hydroline_rest_inv (env : Env) (fuel : ℕ) (r : ReachState) (hr : geom_inv r) :
    outcome_inv (hydroline_rest env fuel r).1 := by
  rw [hydroline_rest]
  apply after_primary_inv
  intro r2 t log h
  split at h
  · injection h with h1 h2 h3
    rw [← h1]
    exact hr
  · exact primary_loop_inv env fuel 0 0 r hr r2 t log h

/-- C4: after any resolution pass on any reach satisfying the invariant, a
non-null tracing method implies a non-null geometry: `get_hydroline` only ever
assigns `tracing_method` in the same step in which a trimmed trace polyline is
assigned to the geometry. -/
theorem get_hydroline_tracing_method_geometry (env : Env) (fuel : ℕ) (r : ReachState)
    (hr : r.tracing_method ≠ none → r.geometry ≠ none) :
    ∀ r' b, ((get_hydroline env fuel r).1 = HydroOutcome.ret r' b ∨
             (get_hydroline env fuel r).1 = HydroOutcome.exn r') →
      r'.tracing_method ≠ none → r'.geometry ≠ none := by
  have hinv : outcome_inv (get_hydroline env fuel r).1 := by
    rcases hput : reach_putin r with _ | p
    · simpa [get_hydroline, hput, outcome_inv, geom_inv] using hr
    · rcases htake : reach_takeout r with _ | t
      · simpa [get_hydroline, hput, htake, outcome_inv, geom_inv] using hr
      · cases hpg : p.geometry with
        | none =>
          simpa [get_hydroline, hput, htake, hpg] using
            hydroline_rest_inv env fuel r hr
        | some g =>
          cases hsnap : env.putin_snap with
          | raise =>
            simpa [get_hydroline, hput, htake, hpg, hsnap, outcome_inv, geom_inv] using hr
          | ok o =>
            cases o with
            | none =>
              simpa [get_hydroline, hput, htake, hpg, hsnap] using
                hydroline_rest_inv env fuel r hr
            | some sp =>
              simpa [get_hydroline, hput, htake, hpg, hsnap] using
                hydroline_rest_inv env fuel
                  { r with reach_points :=
                      update_first (isAccessOf "putin") (applySnapPt sp) r.reach_points } hr
  intro r' b hout
  rcases hout with h | h <;> rw [h] at hinv <;> exact hinv

/-- Witness for the C4 theorem: a reach with no accesses in the
all-services-fail environment ends in the missing-accesses state, which keeps
the invariant. -/
theorem get_hydroline_tracing_method_geometry_witness :
    (emptyReach.tracing_method ≠ none → emptyReach.geometry ≠ none) ∧
    (missingState.tracing_method ≠ none → missingState.geometry ≠ none) :=
  ⟨fun h => absurd rfl h,
   get_hydroline_tracing_method_geometry allFailEnv 0 emptyReach (fun h => absurd rfl h)
     missingState false (Or.inl rfl)⟩

/-- C5 (code bug): the put-in/take-out setter asserts `type(access) !=
ReachPoint` and `access_type != 'putin' and access_type != 'takeout'` - both
conditions inverted relative to their own failure messages - so setting the
put-in with a genuine `ReachPoint` always raises an `AssertionError` instead
of replacing the point. -/
theorem set_putin_takeout_asserts_inverted :
    set_putin_takeout freshReach piPoint "putin" =
      Except.error "putin access must be an instance of ReachPoint object type" := rfl

end WaterReach
